import Mathlib

/-!
Verification development for the BetterStack incidents client
(`betterstack_cli.py`).  The two core functions, `fetch_incidents_page`
and `fetch_all_incidents`, are embedded shallowly: the HTTP layer is an
oracle `Request → HttpResponse`, response bodies are modelled JSON
values, and the unbounded `while True` pagination loop is given explicit
fuel (the loop returns `none` when the fuel runs out, so divergence of
the Python loop corresponds to `none` at every fuel).  Each fetch's
outgoing request is recorded in a trace so that claims about the number
of fetches and the query parameters of each request can be stated.
-/

/-- JSON values as produced by Python's `json` module.  Numbers are
restricted to integers: no claim involves fractional numeric bodies, and
floating point is outside the embedding. -/
inductive Json where
  | null : Json
  | bool : Bool → Json
  | num : Int → Json
  | str : String → Json
  | arr : List Json → Json
  | obj : List (String × Json) → Json

/-- A query-parameter value: Python passes ints (`page`, `per_page`,
`monitor_id`, `heartbeat_id`) and strings (`from`, `to`). -/
inductive PVal where
  | int : Int → PVal
  | str : String → PVal
deriving DecidableEq

/-- An outgoing HTTP GET request as handed to `requests.get`: the URL,
the `params` dict in insertion order, and the bearer token carried in
the `Authorization` header (the constant `Content-Type` header is
omitted). -/
structure Request where
  url : String
  params : List (String × PVal)
  bearer : String
deriving DecidableEq

/-- What the HTTP layer produces for a request: either the request could
not be completed (network/timeout/TLS failure, `requests` raises a
transport exception), or a response with a status code and a body.  The
body is `none` when it is not valid JSON (so `response.json()` raises)
and `some j` when it parses to `j`. -/
inductive HttpResponse where
  | noResponse : HttpResponse
  | resp : Nat → Option Json → HttpResponse

/-- The failure modes of the traversal.  `httpError` corresponds to the
`requests` exceptions (`raise_for_status` failures carry the status
code; transport failures carry none); `decodeError` to
`response.json()` raising on a non-JSON body; `attributeError` to
Python's `AttributeError` from calling `.get` on a non-dict;
`typeError` to Python's `TypeError` from `list.extend` on a
non-iterable (and to `requests` rejecting a non-string URL). -/
inductive FetchError where
  | httpError : Option Nat → FetchError
  | decodeError : FetchError
  | attributeError : FetchError
  | typeError : FetchError
deriving DecidableEq

/-- The fixed base endpoint (`BASE_URL` in the source). -/
def BASE_URL : String := "https://uptime.betterstack.com/api/v2/incidents"

/-- Lines 38–50 of the source: build the `params` dict.  Each key is
inserted only when its Python value is truthy (`if page:` etc.), so a
zero integer, an empty string, or `None` is skipped.  Insertion order
matches the source: `page`, `per_page`, `from`, `to`, `monitor_id`,
`heartbeat_id`. -/
def buildParams (page per_page : Int) (from_date to_date : Option String)
    (monitor_id heartbeat_id : Option Int) : List (String × PVal) :=
  (if page = 0 then [] else [("page", PVal.int page)]) ++
  (if per_page = 0 then [] else [("per_page", PVal.int per_page)]) ++
  (match from_date with
   | some s => if s = "" then [] else [("from", PVal.str s)]
   | none => []) ++
  (match to_date with
   | some s => if s = "" then [] else [("to", PVal.str s)]
   | none => []) ++
  (match monitor_id with
   | some n => if n = 0 then [] else [("monitor_id", PVal.int n)]
   | none => []) ++
  (match heartbeat_id with
   | some n => if n = 0 then [] else [("heartbeat_id", PVal.int n)]
   | none => [])

/-- Lines 28–30 of the source: `if not url: url = BASE_URL`.  A missing
URL or an empty string (both falsy in Python) fall back to the base
endpoint. -/
def effectiveUrl : Option String → String
  | none => BASE_URL
  | some s => if s = "" then BASE_URL else s

/-- Lines 52–57 of the source: the request actually issued.  The params
dict is attached exactly when the URL (after the falsy fallback) is the
base endpoint; otherwise the GET goes to the URL with no params. -/
def buildRequest (api_key : String) (url : Option String) (page per_page : Int)
    (from_date to_date : Option String) (monitor_id heartbeat_id : Option Int) :
    Request :=
  if effectiveUrl url = BASE_URL then
    { url := effectiveUrl url,
      params := buildParams page per_page from_date to_date monitor_id heartbeat_id,
      bearer := api_key }
  else
    { url := effectiveUrl url, params := [], bearer := api_key }

/-- Line 59 of the source, `response.raise_for_status()`: `requests`
raises `HTTPError` exactly for status codes in `[400, 600)`. -/
def raise_for_status (status : Nat) : Bool :=
  decide (400 ≤ status) && decide (status < 600)

/-- Lines 11–60 of the source, `fetch_incidents_page`: issue one GET
against the server oracle; a transport failure or an error status is an
`httpError`, a non-JSON body is a `decodeError`, otherwise the parsed
body is returned. -/
def fetch_incidents_page (server : Request → HttpResponse) (api_key : String)
    (url : Option String) (page per_page : Int)
    (from_date to_date : Option String) (monitor_id heartbeat_id : Option Int) :
    Except FetchError Json :=
  match server (buildRequest api_key url page per_page from_date to_date
      monitor_id heartbeat_id) with
  | HttpResponse.noResponse => Except.error (FetchError.httpError none)
  | HttpResponse.resp status body =>
    if raise_for_status status then Except.error (FetchError.httpError (some status))
    else
      match body with
      | none => Except.error FetchError.decodeError
      | some j => Except.ok j

/-- Python `d.get(key, default)`: defined on dicts only; any other
receiver raises `AttributeError`. -/
def pyGet : Json → String → Json → Except FetchError Json
  | Json.obj fields, key, dflt => Except.ok ((fields.lookup key).getD dflt)
  | _, _, _ => Except.error FetchError.attributeError

/-- Python `d.get(key)` with no default: `none` both when the key is
absent and when it maps to JSON null would differ, so the raw optional
lookup is returned (`none` = key absent = Python `None`). -/
def pyGetOpt : Json → String → Except FetchError (Option Json)
  | Json.obj fields, key => Except.ok (fields.lookup key)
  | _, _ => Except.error FetchError.attributeError

/-- Python `acc.extend(x)`: lists extend element-wise, strings extend
with their one-character strings, dicts with their keys; `None`,
booleans and numbers are not iterable and raise `TypeError`. -/
def pyExtend (acc : List Json) : Json → Except FetchError (List Json)
  | Json.arr xs => Except.ok (acc ++ xs)
  | Json.str s => Except.ok (acc ++ s.toList.map (fun c => Json.str (String.mk [c])))
  | Json.obj fields => Except.ok (acc ++ fields.map (fun kv => Json.str kv.fst))
  | _ => Except.error FetchError.typeError

/-- Python truthiness of a JSON value (`if not next_url:`). -/
def pyTruthy : Json → Bool
  | Json.null => false
  | Json.bool b => b
  | Json.num n => if n = 0 then false else true
  | Json.str s => if s = "" then false else true
  | Json.arr xs => if xs.isEmpty then false else true
  | Json.obj fields => if fields.isEmpty then false else true

/-- Truthiness of `dict.get`'s result: Python `None` (absent key) is
falsy. -/
def pyTruthyOpt : Option Json → Bool
  | none => false
  | some j => pyTruthy j

/-- Outcome of one iteration of the loop body before the next fetch:
the iteration raised, or broke out of the loop returning the
accumulator, or wants to continue with the continuation URL `s`. -/
inductive StepRes where
  | fail : FetchError → StepRes
  | done : List Json → StepRes
  | cont : String → List Json → StepRes

/-- Lines 88–96 of the source, one pass through the loop body:
`data = page.get("data", [])`, `all_incidents.extend(data)`,
`pagination = page.get("pagination", {})`, `next_url =
pagination.get("next")`, then `if not next_url: break`.  A truthy
`next` that is not a string makes `requests.get` raise on the non-string
URL (`typeError` here). -/
def loopBody (p : Json) (acc : List Json) : StepRes :=
  match pyGet p "data" (Json.arr []) with
  | Except.error e => StepRes.fail e
  | Except.ok d =>
    match pyExtend acc d with
    | Except.error e => StepRes.fail e
    | Except.ok acc2 =>
      match pyGet p "pagination" (Json.obj []) with
      | Except.error e => StepRes.fail e
      | Except.ok pagination =>
        match pyGetOpt pagination "next" with
        | Except.error e => StepRes.fail e
        | Except.ok next_url =>
          if pyTruthyOpt next_url then
            match next_url with
            | some (Json.str s) => StepRes.cont s acc2
            | _ => StepRes.fail FetchError.typeError
          else StepRes.done acc2

/-- The request a continuation fetch issues: lines 98–101 call
`fetch_incidents_page(api_key=api_key, url=next_url)`, leaving `page`,
`per_page` and the filters at their defaults `1`, `50`, `None`. -/
def contReq (api_key : String) (s : String) : Request :=
  buildRequest api_key (some s) 1 50 none none none none

/-- Lines 87–102 of the source, the `while True` loop, with fuel.
`none` means the fuel ran out (the Python loop would still be running);
`some (reqs, r)` means the loop finished with outcome `r`, `reqs` being
the full request trace so far (requests issued by continuation fetches
are appended to it). -/
def fetch_all_loop (server : Request → HttpResponse) (api_key : String) :
    Nat → Json → List Json → List Request →
    Option (List Request × Except FetchError (List Json))
  | 0, _, _, _ => none
  | Nat.succ fuel, p, acc, reqs =>
    match loopBody p acc with
    | StepRes.fail e => some (reqs, Except.error e)
    | StepRes.done acc2 => some (reqs, Except.ok acc2)
    | StepRes.cont s acc2 =>
      match fetch_incidents_page server api_key (some s) 1 50 none none none none with
      | Except.error e => some (reqs ++ [contReq api_key s], Except.error e)
      | Except.ok q => fetch_all_loop server api_key fuel q acc2 (reqs ++ [contReq api_key s])

/-- Lines 62–103 of the source, `fetch_all_incidents`: the first fetch
goes to the base endpoint with `page=1`, the caller's `per_page` and
filters; then the loop runs.  A first-fetch failure propagates at once
(its request is the whole trace); otherwise the loop owns the result.
The trace starts with the first request. -/
def fetch_all_incidents (server : Request → HttpResponse) (api_key : String)
    (from_date to_date : Option String) (monitor_id heartbeat_id : Option Int)
    (per_page : Int) (fuel : Nat) :
    Option (List Request × Except FetchError (List Json)) :=
  match fetch_incidents_page server api_key none 1 per_page from_date to_date
      monitor_id heartbeat_id with
  | Except.error e =>
    some ([buildRequest api_key none 1 per_page from_date to_date monitor_id heartbeat_id],
      Except.error e)
  | Except.ok p0 =>
    fetch_all_loop server api_key fuel p0 []
      [buildRequest api_key none 1 per_page from_date to_date monitor_id heartbeat_id]

/-! Observables used to state the claims: the record sequence a page
carries, its continuation link, and well-formedness of a page (the shape
the spec's response-body contract describes). -/

/-- The incident records of a page: its `data` array, an absent `data`
reading as empty. -/
def dataOf : Json → List Json
  | Json.obj fields =>
    match fields.lookup "data" with
    | some (Json.arr xs) => xs
    | _ => []
  | _ => []

/-- The effective continuation link of a page: the `pagination.next`
string when it is present and non-empty, and `none` when `pagination`
or `next` is absent, null, or the empty string. -/
def pageNext : Json → Option String
  | Json.obj fields =>
    match fields.lookup "pagination" with
    | some (Json.obj ps) =>
      match ps.lookup "next" with
      | some (Json.str s) => if s = "" then none else some s
      | _ => none
    | _ => none
  | _ => none

/-- A well-typed `data` field: absent or an array. -/
def goodData : Option Json → Bool
  | none => true
  | some (Json.arr _) => true
  | _ => false

/-- A well-typed `next` field: absent, null, or a string. -/
def goodNext : Option Json → Bool
  | none => true
  | some Json.null => true
  | some (Json.str _) => true
  | _ => false

/-- A well-typed `pagination` field: absent, or an object whose `next`
is well typed. -/
def goodPag : Option Json → Bool
  | none => true
  | some (Json.obj ps) => goodNext (ps.lookup "next")
  | _ => false

/-- A well-formed page: a JSON object whose `data` and `pagination`
fields have the shape the API contract describes.  On such a page the
loop body never raises. -/
def goodPage : Json → Bool
  | Json.obj fields =>
    goodData (fields.lookup "data") && goodPag (fields.lookup "pagination")
  | _ => false

/-- The fetch a continuation step performs (source lines 98–101). -/
def contFetch (server : Request → HttpResponse) (api_key : String) (s : String) :
    Except FetchError Json :=
  fetch_incidents_page server api_key (some s) 1 50 none none none none

/-- The chain of pages the server's `next` links induce, starting from a
page already in hand: `chainG server k p n` is the page reached after
`n` continuation fetches, and is `some` only when every page along the
way (the last included) is well formed and every fetch succeeded. -/
def chainG (server : Request → HttpResponse) (api_key : String) :
    Json → Nat → Option Json
  | p, 0 => if goodPage p then some p else none
  | p, Nat.succ n =>
    if goodPage p then
      match pageNext p with
      | none => none
      | some s =>
        match contFetch server api_key s with
        | Except.ok q => chainG server api_key q n
        | Except.error _ => none
    else none

/-- The ordered concatenation of the `data` of the first `n + 1` pages
of the chain: pages in fetch order, records within a page in server
order, nothing deduplicated or re-sorted. -/
def chainConcat (server : Request → HttpResponse) (api_key : String) :
    Json → Nat → List Json
  | p, 0 => dataOf p
  | p, Nat.succ n =>
    match pageNext p with
    | none => dataOf p
    | some s =>
      match contFetch server api_key s with
      | Except.ok q => dataOf p ++ chainConcat server api_key q n
      | Except.error _ => dataOf p

/-- A server oracle that honours the API contract: every request gets a
2xx response whose body is a well-formed page. -/
def WellFormedServer (server : Request → HttpResponse) : Prop :=
  ∀ req : Request, ∃ p : Json,
    server req = HttpResponse.resp 200 (some p) ∧ goodPage p = true

/-! Concrete pages and server oracles used to instantiate the claims. -/

/-- A page that is an empty JSON object: no `data`, no `pagination`. -/
def emptyPage : Json := Json.obj []

/-- A server that answers every request with the empty page. -/
def constEmptyServer : Request → HttpResponse :=
  fun _ => HttpResponse.resp 200 (some emptyPage)

/-- The continuation URL the misbehaving server keeps advertising. -/
def badNext : String := "https://uptime.betterstack.com/api/v2/incidents?page=2"

/-- A page whose `next` link is always present: following it forever. -/
def badPage : Json :=
  Json.obj [("data", Json.arr []),
    ("pagination", Json.obj [("next", Json.str badNext)])]

/-- A misbehaving server: every request, the first one included, gets
`badPage`, whose `next` is never empty. -/
def badServer : Request → HttpResponse :=
  fun _ => HttpResponse.resp 200 (some badPage)

/-- First page of a two-page scenario: two records, `next` is `u2`. -/
def w2Page1 : Json :=
  Json.obj [("data", Json.arr [Json.num 1, Json.num 2]),
    ("pagination", Json.obj [("next", Json.str "u2")])]

/-- Second page of the two-page scenario: one record, `next` null. -/
def w2Page2 : Json :=
  Json.obj [("data", Json.arr [Json.num 3]),
    ("pagination", Json.obj [("next", Json.null)])]

/-- The two-page server: requests to `u2` get page 2, everything else
(the base endpoint) gets page 1. -/
def w2Server : Request → HttpResponse :=
  fun req => if req.url = "u2" then HttpResponse.resp 200 (some w2Page2)
    else HttpResponse.resp 200 (some w2Page1)

/-- A server on which every request fails at the transport layer. -/
def noRespServer : Request → HttpResponse := fun _ => HttpResponse.noResponse

/-- A server where the first page succeeds and the continuation fetch
(to `u2`) fails at the transport layer. -/
def failLaterServer : Request → HttpResponse :=
  fun req => if req.url = "u2" then HttpResponse.noResponse
    else HttpResponse.resp 200 (some w2Page1)

/-- A server that answers every request with HTTP 404. -/
def deny404Server : Request → HttpResponse :=
  fun _ => HttpResponse.resp 404 (some emptyPage)

/-- A page whose continuation link is exactly the base endpoint URL. -/
def nextBasePage : Json :=
  Json.obj [("data", Json.arr []),
    ("pagination", Json.obj [("next", Json.str BASE_URL)])]

/-- A server for the base-endpoint-continuation scenario: requests that
carry a `monitor_id` parameter (the filtered first request) get the page
whose `next` is the base endpoint; all others get the empty page. -/
def c3Server : Request → HttpResponse :=
  fun req => if (req.params.lookup "monitor_id").isSome
    then HttpResponse.resp 200 (some nextBasePage)
    else HttpResponse.resp 200 (some emptyPage)

/-! Core lemmas about the loop. -/

theorem fetch_all_loop_succ (server : Request → HttpResponse) (api_key : String)
    (fuel : Nat) (p : Json) (acc : List Json) (reqs : List Request) :
    fetch_all_loop server api_key (fuel + 1) p acc reqs =
      match loopBody p acc with
      | StepRes.fail e => some (reqs, Except.error e)
      | StepRes.done acc2 => some (reqs, Except.ok acc2)
      | StepRes.cont s acc2 =>
        match contFetch server api_key s with
        | Except.error e => some (reqs ++ [contReq api_key s], Except.error e)
        | Except.ok q => fetch_all_loop server api_key fuel q acc2 (reqs ++ [contReq api_key s]) :=
  rfl

theorem loopBody_good (p : Json) (acc : List Json) (h : goodPage p = true) :
    loopBody p acc =
      match pageNext p with
      | none => StepRes.done (acc ++ dataOf p)
      | some s => StepRes.cont s (acc ++ dataOf p) := by
  cases p with
  | obj fields =>
    simp only [goodPage, Bool.and_eq_true] at h
    obtain ⟨hd, hp⟩ := h
    cases hdata : fields.lookup "data" with
    | none =>
      cases hpag : fields.lookup "pagination" with
      | none =>
        simp [loopBody, pyGet, pyGetOpt, pyExtend, pyTruthyOpt, pageNext, dataOf, hdata, hpag]
      | some pag =>
        rw [hpag] at hp
        cases pag <;> simp [goodPag] at hp
        case obj ps =>
          cases hnext : ps.lookup "next" with
          | none =>
            simp [loopBody, pyGet, pyGetOpt, pyExtend, pyTruthyOpt, pageNext, dataOf,
              hdata, hpag, hnext]
          | some nx =>
            rw [hnext] at hp
            cases nx <;> simp [goodNext] at hp
            case null =>
              simp [loopBody, pyGet, pyGetOpt, pyExtend, pyTruthyOpt, pyTruthy, pageNext,
                dataOf, hdata, hpag, hnext]
            case str s =>
              by_cases hs : s = "" <;>
                simp [loopBody, pyGet, pyGetOpt, pyExtend, pyTruthyOpt, pyTruthy, pageNext,
                  dataOf, hdata, hpag, hnext, hs]
    | some d =>
      rw [hdata] at hd
      cases d <;> simp [goodData] at hd
      case arr xs =>
        cases hpag : fields.lookup "pagination" with
        | none =>
          simp [loopBody, pyGet, pyGetOpt, pyExtend, pyTruthyOpt, pageNext, dataOf, hdata, hpag]
        | some pag =>
          rw [hpag] at hp
          cases pag <;> simp [goodPag] at hp
          case obj ps =>
            cases hnext : ps.lookup "next" with
            | none =>
              simp [loopBody, pyGet, pyGetOpt, pyExtend, pyTruthyOpt, pageNext, dataOf,
                hdata, hpag, hnext]
            | some nx =>
              rw [hnext] at hp
              cases nx <;> simp [goodNext] at hp
              case null =>
                simp [loopBody, pyGet, pyGetOpt, pyExtend, pyTruthyOpt, pyTruthy, pageNext,
                  dataOf, hdata, hpag, hnext]
              case str s =>
                by_cases hs : s = "" <;>
                  simp [loopBody, pyGet, pyGetOpt, pyExtend, pyTruthyOpt, pyTruthy, pageNext,
                    dataOf, hdata, hpag, hnext, hs]
  | null => simp [goodPage] at h
  | bool b => simp [goodPage] at h
  | num n => simp [goodPage] at h
  | str s => simp [goodPage] at h
  | arr xs => simp [goodPage] at h

theorem loop_done (server : Request → HttpResponse) (api_key : String)
    (fuel : Nat) (p : Json) (acc : List Json) (reqs : List Request)
    (hg : goodPage p = true) (hn : pageNext p = none) :
    fetch_all_loop server api_key (fuel + 1) p acc reqs =
      some (reqs, Except.ok (acc ++ dataOf p)) := by
  have h := loopBody_good p acc hg
  rw [hn] at h
  rw [fetch_all_loop_succ, h]

theorem loop_cont (server : Request → HttpResponse) (api_key : String)
    (fuel : Nat) (p : Json) (acc : List Json) (reqs : List Request) (s : String)
    (hg : goodPage p = true) (hn : pageNext p = some s) :
    fetch_all_loop server api_key (fuel + 1) p acc reqs =
      match contFetch server api_key s with
      | Except.error e => some (reqs ++ [contReq api_key s], Except.error e)
      | Except.ok q =>
        fetch_all_loop server api_key fuel q (acc ++ dataOf p) (reqs ++ [contReq api_key s]) := by
  have h := loopBody_good p acc hg
  rw [hn] at h
  rw [fetch_all_loop_succ, h]

theorem chainG_zero (server : Request → HttpResponse) (api_key : String) (p : Json)
    (hg : goodPage p = true) : chainG server api_key p 0 = some p := by
  simp [chainG, hg]

theorem chainG_succ_ok (server : Request → HttpResponse) (api_key : String)
    (p p2 : Json) (n : Nat) (s : String)
    (hg : goodPage p = true) (hnx : pageNext p = some s)
    (hcf : contFetch server api_key s = Except.ok p2) :
    chainG server api_key p (n + 1) = chainG server api_key p2 n := by
  simp only [chainG]
  rw [if_pos hg, hnx]
  dsimp only
  rw [hcf]

theorem chainG_succ_elim (server : Request → HttpResponse) (api_key : String)
    (p q : Json) (n : Nat) (hc : chainG server api_key p (n + 1) = some q) :
    goodPage p = true ∧ ∃ s p2, pageNext p = some s ∧
      contFetch server api_key s = Except.ok p2 ∧ chainG server api_key p2 n = some q := by
  simp only [chainG] at hc
  by_cases hg : goodPage p = true
  · rw [if_pos hg] at hc
    refine ⟨hg, ?_⟩
    cases hnx : pageNext p with
    | none => rw [hnx] at hc; cases hc
    | some s =>
      rw [hnx] at hc
      dsimp only at hc
      cases hcf : contFetch server api_key s with
      | error e => rw [hcf] at hc; cases hc
      | ok p2 =>
        rw [hcf] at hc
        exact ⟨s, p2, rfl, hcf, hc⟩
  · rw [if_neg hg] at hc
    cases hc

theorem chainG_zero_elim (server : Request → HttpResponse) (api_key : String)
    (p q : Json) (hc : chainG server api_key p 0 = some q) :
    goodPage p = true ∧ p = q := by
  simp only [chainG] at hc
  by_cases hg : goodPage p = true
  · rw [if_pos hg] at hc
    exact ⟨hg, by cases hc; rfl⟩
  · rw [if_neg hg] at hc
    cases hc

theorem chainConcat_succ_ok (server : Request → HttpResponse) (api_key : String)
    (p p2 : Json) (n : Nat) (s : String)
    (hnx : pageNext p = some s) (hcf : contFetch server api_key s = Except.ok p2) :
    chainConcat server api_key p (n + 1) = dataOf p ++ chainConcat server api_key p2 n := by
  simp only [chainConcat]
  rw [hnx]
  dsimp only
  rw [hcf]

theorem loop_chain_ok (server : Request → HttpResponse) (api_key : String) :
    ∀ (n : Nat) (p q : Json) (acc : List Json) (reqs : List Request) (fuel : Nat),
    chainG server api_key p n = some q → pageNext q = none → n < fuel →
    ∃ reqs2 : List Request,
      fetch_all_loop server api_key fuel p acc reqs =
        some (reqs ++ reqs2, Except.ok (acc ++ chainConcat server api_key p n)) ∧
      reqs2.length = n := by
  intro n
  induction n with
  | zero =>
    intro p q acc reqs fuel hc hn hf
    obtain ⟨hg, rfl⟩ := chainG_zero_elim server api_key p q hc
    obtain ⟨fuel2, rfl⟩ : ∃ fuel2, fuel = fuel2 + 1 := ⟨fuel - 1, by omega⟩
    refine ⟨[], ?_, rfl⟩
    rw [loop_done server api_key fuel2 p acc reqs hg hn]
    simp [chainConcat]
  | succ n ih =>
    intro p q acc reqs fuel hc hn hf
    obtain ⟨hg, s, p2, hnx, hcf, hc2⟩ := chainG_succ_elim server api_key p q n hc
    obtain ⟨fuel2, rfl⟩ : ∃ fuel2, fuel = fuel2 + 1 := ⟨fuel - 1, by omega⟩
    rw [loop_cont server api_key fuel2 p acc reqs s hg hnx, hcf]
    dsimp only
    obtain ⟨reqs2, hloop, hlen⟩ :=
      ih p2 q (acc ++ dataOf p) (reqs ++ [contReq api_key s]) fuel2 hc2 hn (by omega)
    refine ⟨contReq api_key s :: reqs2, ?_, by simp [hlen]⟩
    rw [hloop, chainConcat_succ_ok server api_key p p2 n s hnx hcf]
    simp

theorem loop_chain_err (server : Request → HttpResponse) (api_key : String) :
    ∀ (n : Nat) (p q : Json) (s : String) (e : FetchError)
      (acc : List Json) (reqs : List Request) (fuel : Nat),
    chainG server api_key p n = some q → pageNext q = some s →
    contFetch server api_key s = Except.error e → n < fuel →
    ∃ reqs2 : List Request,
      fetch_all_loop server api_key fuel p acc reqs =
        some (reqs ++ reqs2, Except.error e) ∧
      reqs2.length = n + 1 := by
  intro n
  induction n with
  | zero =>
    intro p q s e acc reqs fuel hc hn hcf hf
    obtain ⟨hg, rfl⟩ := chainG_zero_elim server api_key p q hc
    obtain ⟨fuel2, rfl⟩ : ∃ fuel2, fuel = fuel2 + 1 := ⟨fuel - 1, by omega⟩
    refine ⟨[contReq api_key s], ?_, rfl⟩
    rw [loop_cont server api_key fuel2 p acc reqs s hg hn, hcf]
  | succ n ih =>
    intro p q s e acc reqs fuel hc hn hcf hf
    obtain ⟨hg, s1, p2, hnx, hcf1, hc2⟩ := chainG_succ_elim server api_key p q n hc
    obtain ⟨fuel2, rfl⟩ : ∃ fuel2, fuel = fuel2 + 1 := ⟨fuel - 1, by omega⟩
    rw [loop_cont server api_key fuel2 p acc reqs s1 hg hnx, hcf1]
    dsimp only
    obtain ⟨reqs2, hloop, hlen⟩ :=
      ih p2 q s e (acc ++ dataOf p) (reqs ++ [contReq api_key s1]) fuel2 hc2 hn hcf (by omega)
    refine ⟨contReq api_key s1 :: reqs2, ?_, by simp [hlen]⟩
    rw [hloop]
    simp

theorem loop_reqs_extend (server : Request → HttpResponse) (api_key : String) :
    ∀ (fuel : Nat) (p : Json) (acc : List Json) (reqs reqs2 : List Request)
      (res : Except FetchError (List Json)),
    fetch_all_loop server api_key fuel p acc reqs = some (reqs2, res) →
    ∃ suffix : List Request, reqs2 = reqs ++ suffix ∧
      ∀ r ∈ suffix, ∃ s : String, r = contReq api_key s := by
  intro fuel
  induction fuel with
  | zero => intro p acc reqs reqs2 res h; cases h
  | succ fuel ih =>
    intro p acc reqs reqs2 res h
    rw [fetch_all_loop_succ] at h
    cases hb : loopBody p acc with
    | fail e =>
      rw [hb] at h
      obtain ⟨rfl, -⟩ : reqs = reqs2 ∧ Except.error e = res := by
        cases h; exact ⟨rfl, rfl⟩
      exact ⟨[], by simp, by simp⟩
    | done acc2 =>
      rw [hb] at h
      obtain ⟨rfl, -⟩ : reqs = reqs2 ∧ Except.ok acc2 = res := by
        cases h; exact ⟨rfl, rfl⟩
      exact ⟨[], by simp, by simp⟩
    | cont s acc2 =>
      rw [hb] at h
      dsimp only at h
      cases hcf : contFetch server api_key s with
      | error e =>
        rw [hcf] at h
        obtain ⟨rfl, -⟩ : reqs ++ [contReq api_key s] = reqs2 ∧ Except.error e = res := by
          cases h; exact ⟨rfl, rfl⟩
        exact ⟨[contReq api_key s], by simp, by simp⟩
      | ok q =>
        rw [hcf] at h
        obtain ⟨suffix, hsuf, hall⟩ := ih q acc2 (reqs ++ [contReq api_key s]) reqs2 res h
        refine ⟨contReq api_key s :: suffix, by simp [hsuf], ?_⟩
        intro r hr
        rcases List.mem_cons.mp hr with hr1 | hr2
        · exact ⟨s, hr1⟩
        · exact hall r hr2

theorem wf_fetch (server : Request → HttpResponse) (hwf : WellFormedServer server)
    (api_key : String) (url : Option String) (page per_page : Int)
    (from_date to_date : Option String) (monitor_id heartbeat_id : Option Int) :
    ∃ p : Json,
      fetch_incidents_page server api_key url page per_page from_date to_date
        monitor_id heartbeat_id = Except.ok p ∧ goodPage p = true := by
  obtain ⟨p, hp, hg⟩ := hwf (buildRequest api_key url page per_page from_date to_date
    monitor_id heartbeat_id)
  refine ⟨p, ?_, hg⟩
  unfold fetch_incidents_page
  rw [hp]
  rfl

theorem wf_contFetch (server : Request → HttpResponse) (hwf : WellFormedServer server)
    (api_key : String) (s : String) :
    ∃ q : Json, contFetch server api_key s = Except.ok q ∧ goodPage q = true :=
  wf_fetch server hwf api_key (some s) 1 50 none none none none

theorem loop_term_forward (server : Request → HttpResponse) (api_key : String)
    (hwf : WellFormedServer server) :
    ∀ (fuel : Nat) (p : Json) (acc : List Json) (reqs : List Request)
      (r : List Request × Except FetchError (List Json)),
    goodPage p = true →
    fetch_all_loop server api_key fuel p acc reqs = some r →
    ∃ (n : Nat) (q : Json), chainG server api_key p n = some q ∧ pageNext q = none := by
  intro fuel
  induction fuel with
  | zero => intro p acc reqs r hg h; cases h
  | succ fuel ih =>
    intro p acc reqs r hg h
    cases hnx : pageNext p with
    | none =>
      exact ⟨0, p, chainG_zero server api_key p hg, hnx⟩
    | some s =>
      rw [loop_cont server api_key fuel p acc reqs s hg hnx] at h
      obtain ⟨q, hcf, hgq⟩ := wf_contFetch server hwf api_key s
      rw [hcf] at h
      obtain ⟨n, q2, hc, hn⟩ := ih q (acc ++ dataOf p) (reqs ++ [contReq api_key s]) r hgq h
      refine ⟨n + 1, q2, ?_, hn⟩
      rw [chainG_succ_ok server api_key p q n s hg hnx hcf]
      exact hc

theorem bad_loop (api_key : String) :
    ∀ (fuel : Nat) (acc : List Json) (reqs : List Request),
    fetch_all_loop badServer api_key fuel badPage acc reqs = none := by
  intro fuel
  induction fuel with
  | zero => intro acc reqs; rfl
  | succ fuel ih =>
    intro acc reqs
    have hb : loopBody badPage acc = StepRes.cont badNext (acc ++ []) := rfl
    have hcf : contFetch badServer api_key badNext = Except.ok badPage := rfl
    rw [fetch_all_loop_succ, hb]
    dsimp only
    rw [hcf]
    exact ih (acc ++ []) (reqs ++ [contReq api_key badNext])

theorem loop_nonobj (server : Request → HttpResponse) (api_key : String)
    (fuel : Nat) (p : Json) (acc : List Json) (reqs : List Request)
    (h : ∀ fields : List (String × Json), p ≠ Json.obj fields) :
    fetch_all_loop server api_key (fuel + 1) p acc reqs =
      some (reqs, Except.error FetchError.attributeError) := by
  cases p with
  | obj fields => exact absurd rfl (h fields)
  | null => rfl
  | bool b => rfl
  | num n => rfl
  | str s => rfl
  | arr xs => rfl

/-- C7: for every fetched page whose `pagination.next` is absent, null,
or the empty string — the case of an absent `pagination` object
included (all captured by `pageNext p = none` on a well-formed page) —
the traversal terminates successfully right after that fetch, returning
the accumulator extended with the page's data, and issues no further
fetches (the request trace is unchanged). -/
theorem spec_C7 (server : Request → HttpResponse) (api_key : String)
    (fuel : Nat) (p : Json) (acc : List Json) (reqs : List Request)
    (hg : goodPage p = true) (hn : pageNext p = none) :
    fetch_all_loop server api_key (fuel + 1) p acc reqs =
      some (reqs, Except.ok (acc ++ dataOf p)) :=
  loop_done server api_key fuel p acc reqs hg hn

theorem spec_C7_witness :
    fetch_all_loop constEmptyServer "k" 1
        (Json.obj [("data", Json.arr [Json.num 7]), ("pagination", Json.obj [("next", Json.null)])])
        [Json.num 5] [] =
      some ([], Except.ok [Json.num 5, Json.num 7]) :=
  spec_C7 constEmptyServer "k" 0
    (Json.obj [("data", Json.arr [Json.num 7]), ("pagination", Json.obj [("next", Json.null)])])
    [Json.num 5] [] rfl rfl

/-- C8: when the first page has an empty or absent `data` sequence
(`dataOf p0 = []` covers both) and no continuation link, the traversal
returns the empty sequence after exactly one fetch: the trace is the
single first request. -/
theorem spec_C8 (server : Request → HttpResponse) (api_key : String)
    (from_date to_date : Option String) (monitor_id heartbeat_id : Option Int)
    (per_page : Int) (fuel : Nat) (p0 : Json)
    (hfirst : fetch_incidents_page server api_key none 1 per_page from_date to_date
      monitor_id heartbeat_id = Except.ok p0)
    (hg : goodPage p0 = true) (hdata : dataOf p0 = []) (hn : pageNext p0 = none) :
    fetch_all_incidents server api_key from_date to_date monitor_id heartbeat_id
        per_page (fuel + 1) =
      some ([buildRequest api_key none 1 per_page from_date to_date monitor_id heartbeat_id],
        Except.ok []) := by
  unfold fetch_all_incidents
  rw [hfirst]
  dsimp only
  rw [loop_done server api_key fuel p0 _ _ hg hn, hdata]
  rfl

theorem spec_C8_witness :
    fetch_all_incidents constEmptyServer "k" none none none none 50 1 =
      some ([buildRequest "k" none 1 50 none none none none], Except.ok []) :=
  spec_C8 constEmptyServer "k" none none none none 50 0 emptyPage rfl rfl rfl rfl

/-- C9: when a page's `pagination.next` is exactly the base endpoint
URL, the continuation fetch issued for it carries the Page Fetcher's
default query parameters `page=1` and `per_page=50` (not the caller's
filters), because the fetcher attaches parameters whenever the request
URL equals the base endpoint string.  The request issued right after
the `reqs.length` requests already in the trace is that parameterised
one. -/
theorem spec_C9 (server : Request → HttpResponse) (api_key : String)
    (fuel : Nat) (p : Json) (acc : List Json) (reqs reqs2 : List Request)
    (res : Except FetchError (List Json))
    (hg : goodPage p = true) (hnx : pageNext p = some BASE_URL)
    (h : fetch_all_loop server api_key (fuel + 1) p acc reqs = some (reqs2, res)) :
    reqs2[reqs.length]? =
      some (Request.mk BASE_URL [("page", PVal.int 1), ("per_page", PVal.int 50)] api_key) := by
  have hcr : contReq api_key BASE_URL =
      Request.mk BASE_URL [("page", PVal.int 1), ("per_page", PVal.int 50)] api_key := rfl
  rw [loop_cont server api_key fuel p acc reqs BASE_URL hg hnx] at h
  cases hcf : contFetch server api_key BASE_URL with
  | error e =>
    rw [hcf] at h
    dsimp only at h
    obtain ⟨rfl, -⟩ : reqs ++ [contReq api_key BASE_URL] = reqs2 ∧ Except.error e = res := by
      cases h; exact ⟨rfl, rfl⟩
    rw [← hcr]
    exact List.getElem?_concat_length reqs (contReq api_key BASE_URL)
  | ok q =>
    rw [hcf] at h
    dsimp only at h
    obtain ⟨suffix, rfl, -⟩ :=
      loop_reqs_extend server api_key fuel q (acc ++ dataOf p)
        (reqs ++ [contReq api_key BASE_URL]) reqs2 res h
    rw [← hcr, List.append_assoc, List.getElem?_append_right (Nat.le_refl reqs.length)]
    simp

theorem spec_C9_witness :
    ([Request.mk BASE_URL [("page", PVal.int 1), ("per_page", PVal.int 50)] "k"] :
        List Request)[0]? =
      some (Request.mk BASE_URL [("page", PVal.int 1), ("per_page", PVal.int 50)] "k") :=
  spec_C9 constEmptyServer "k" 1 nextBasePage [] [] _ (Except.ok []) rfl rfl rfl

/-- C10: a fetched body that is valid JSON but not a JSON object (an
array, string, number, boolean or null) makes the traversal fail with
`attributeError` — Python's `AttributeError` from `.get` on a non-dict —
which is outside the spec's HttpError/DecodeError taxonomy, and no
results are returned (the outcome carries the error alone); for the
first fetch this is stated over the whole traversal. -/
theorem spec_C10 :
    (∀ (server : Request → HttpResponse) (api_key : String) (fuel : Nat)
       (p : Json) (acc : List Json) (reqs : List Request),
      (∀ fields : List (String × Json), p ≠ Json.obj fields) →
      fetch_all_loop server api_key (fuel + 1) p acc reqs =
        some (reqs, Except.error FetchError.attributeError)) ∧
    (∀ (server : Request → HttpResponse) (api_key : String)
       (from_date to_date : Option String) (monitor_id heartbeat_id : Option Int)
       (per_page : Int) (fuel : Nat) (j : Json),
      fetch_incidents_page server api_key none 1 per_page from_date to_date
        monitor_id heartbeat_id = Except.ok j →
      (∀ fields : List (String × Json), j ≠ Json.obj fields) →
      fetch_all_incidents server api_key from_date to_date monitor_id heartbeat_id
          per_page (fuel + 1) =
        some ([buildRequest api_key none 1 per_page from_date to_date monitor_id heartbeat_id],
          Except.error FetchError.attributeError)) ∧
    (∀ st : Option Nat, FetchError.attributeError ≠ FetchError.httpError st) ∧
    FetchError.attributeError ≠ FetchError.decodeError := by
  refine ⟨loop_nonobj, ?_, ?_, ?_⟩
  · intro server api_key fd td mid hid pp fuel j hfirst hj
    unfold fetch_all_incidents
    rw [hfirst]
    dsimp only
    exact loop_nonobj server api_key fuel j [] _ hj
  · intro st h
    exact FetchError.noConfusion h
  · intro h
    exact FetchError.noConfusion h

theorem spec_C10_witness :
    fetch_all_loop constEmptyServer "k" 1 (Json.arr []) [] [] =
      some ([], Except.error FetchError.attributeError) :=
  spec_C10.1 constEmptyServer "k" 0 (Json.arr []) [] []
    (fun _ h => Json.noConfusion h)

/-- C1: for a chain of `n + 1` server pages in which page `i`'s
`pagination.next` is the continuation URL of page `i + 1` and the last
page's `next` is empty (`chainG` follows exactly those links, and
`pageNext q = none` is the null/absent last link), the traversal
performs exactly `n + 1` fetches and returns `chainConcat`, the
concatenation of the pages' `data` sequences — pages in fetch order,
records in server order, with no de-duplication or re-sorting. -/
theorem spec_C1 (server : Request → HttpResponse) (api_key : String)
    (from_date to_date : Option String) (monitor_id heartbeat_id : Option Int)
    (per_page : Int) (p0 q : Json) (n fuel : Nat)
    (hfirst : fetch_incidents_page server api_key none 1 per_page from_date to_date
      monitor_id heartbeat_id = Except.ok p0)
    (hchain : chainG server api_key p0 n = some q)
    (hlast : pageNext q = none)
    (hfuel : n < fuel) :
    ∃ reqs : List Request,
      fetch_all_incidents server api_key from_date to_date monitor_id heartbeat_id
          per_page fuel =
        some (reqs, Except.ok (chainConcat server api_key p0 n)) ∧
      reqs.length = n + 1 := by
  unfold fetch_all_incidents
  rw [hfirst]
  dsimp only
  obtain ⟨reqs2, hloop, hlen⟩ :=
    loop_chain_ok server api_key n p0 q []
      [buildRequest api_key none 1 per_page from_date to_date monitor_id heartbeat_id]
      fuel hchain hlast hfuel
  refine ⟨buildRequest api_key none 1 per_page from_date to_date monitor_id heartbeat_id ::
    reqs2, ?_, by simp [hlen]⟩
  rw [hloop]
  simp

theorem spec_C1_witness :
    chainConcat w2Server "k" w2Page1 1 = [Json.num 1, Json.num 2, Json.num 3] ∧
    ∃ reqs : List Request,
      fetch_all_incidents w2Server "k" none none none none 50 2 =
        some (reqs, Except.ok (chainConcat w2Server "k" w2Page1 1)) ∧
      reqs.length = 2 :=
  ⟨rfl, spec_C1 w2Server "k" none none none none 50 w2Page1 w2Page2 1 2 rfl rfl rfl
    (by omega)⟩

/-- C2: over a server that honours the response contract, the traversal
terminates (returns `some` at some fuel) exactly when the chain of
server-reported `next` links eventually reaches a page whose link is
absent or empty; and there is no client-side page cap: against
`badServer`, whose every page carries a non-empty `next`, the loop runs
out of any fuel (the Python loop never terminates). -/
theorem spec_C2 :
    (∀ (server : Request → HttpResponse) (api_key : String)
       (from_date to_date : Option String) (monitor_id heartbeat_id : Option Int)
       (per_page : Int) (p0 : Json),
      WellFormedServer server →
      fetch_incidents_page server api_key none 1 per_page from_date to_date
        monitor_id heartbeat_id = Except.ok p0 →
      ((∃ (fuel : Nat) (r : List Request × Except FetchError (List Json)),
          fetch_all_incidents server api_key from_date to_date monitor_id heartbeat_id
            per_page fuel = some r) ↔
        (∃ (n : Nat) (q : Json),
          chainG server api_key p0 n = some q ∧ pageNext q = none))) ∧
    (∀ (api_key : String) (fuel : Nat),
      fetch_all_incidents badServer api_key none none none none 50 fuel = none) := by
  constructor
  · intro server api_key fd td mid hid pp p0 hwf hfirst
    have hg0 : goodPage p0 = true := by
      obtain ⟨p, hp, hg⟩ := wf_fetch server hwf api_key none 1 pp fd td mid hid
      rw [hfirst] at hp
      injection hp with h
      rw [h]
      exact hg
    constructor
    · rintro ⟨fuel, r, hr⟩
      unfold fetch_all_incidents at hr
      rw [hfirst] at hr
      dsimp only at hr
      exact loop_term_forward server api_key hwf fuel p0 [] _ r hg0 hr
    · rintro ⟨n, q, hc, hn⟩
      obtain ⟨reqs2, hloop, -⟩ :=
        loop_chain_ok server api_key n p0 q []
          [buildRequest api_key none 1 pp fd td mid hid] (n + 1) hc hn (by omega)
      refine ⟨n + 1, ([buildRequest api_key none 1 pp fd td mid hid] ++ reqs2,
        Except.ok ([] ++ chainConcat server api_key p0 n)), ?_⟩
      unfold fetch_all_incidents
      rw [hfirst]
      dsimp only
      exact hloop
  · intro api_key fuel
    have hfirst : fetch_incidents_page badServer api_key none 1 50 none none none none =
        Except.ok badPage := rfl
    unfold fetch_all_incidents
    rw [hfirst]
    dsimp only
    exact bad_loop api_key fuel [] _

theorem spec_C2_witness :
    (∃ (fuel : Nat) (r : List Request × Except FetchError (List Json)),
      fetch_all_incidents constEmptyServer "k" none none none none 50 fuel = some r) ∧
    fetch_all_incidents badServer "k" none none none none 50 5 = none :=
  ⟨(spec_C2.1 constEmptyServer "k" none none none none 50 emptyPage
      (fun _ => ⟨emptyPage, rfl, rfl⟩) rfl).mpr ⟨0, emptyPage, rfl, rfl⟩,
    spec_C2.2 "k" 5⟩

/-- C4: a fetch failure aborts the traversal at once and is propagated
whole.  First conjunct: a failing first fetch makes the traversal
return that error with a single-request trace — no further fetches, no
incidents.  Second conjunct: when `n` continuation fetches succeed and
the next one fails, the traversal returns exactly that error with a
trace of `n + 2` requests (the failing one last), and the result
carries no incident list — the pages accumulated before the failure are
discarded, all-or-nothing. -/
theorem spec_C4 :
    (∀ (server : Request → HttpResponse) (api_key : String)
       (from_date to_date : Option String) (monitor_id heartbeat_id : Option Int)
       (per_page : Int) (fuel : Nat) (e : FetchError),
      fetch_incidents_page server api_key none 1 per_page from_date to_date
        monitor_id heartbeat_id = Except.error e →
      fetch_all_incidents server api_key from_date to_date monitor_id heartbeat_id
          per_page fuel =
        some ([buildRequest api_key none 1 per_page from_date to_date monitor_id heartbeat_id],
          Except.error e)) ∧
    (∀ (server : Request → HttpResponse) (api_key : String)
       (from_date to_date : Option String) (monitor_id heartbeat_id : Option Int)
       (per_page : Int) (p0 q : Json) (n fuel : Nat) (s : String) (e : FetchError),
      fetch_incidents_page server api_key none 1 per_page from_date to_date
        monitor_id heartbeat_id = Except.ok p0 →
      chainG server api_key p0 n = some q →
      pageNext q = some s →
      contFetch server api_key s = Except.error e →
      n < fuel →
      ∃ reqs : List Request,
        fetch_all_incidents server api_key from_date to_date monitor_id heartbeat_id
            per_page fuel = some (reqs, Except.error e) ∧
        reqs.length = n + 2) := by
  constructor
  · intro server api_key fd td mid hid pp fuel e herr
    unfold fetch_all_incidents
    rw [herr]
  · intro server api_key fd td mid hid pp p0 q n fuel s e hfirst hchain hnext hfail hfuel
    unfold fetch_all_incidents
    rw [hfirst]
    dsimp only
    obtain ⟨reqs2, hloop, hlen⟩ :=
      loop_chain_err server api_key n p0 q s e []
        [buildRequest api_key none 1 pp fd td mid hid] fuel hchain hnext hfail hfuel
    refine ⟨buildRequest api_key none 1 pp fd td mid hid :: reqs2, ?_, by simp [hlen]⟩
    rw [hloop]
    simp

theorem spec_C4_witness :
    fetch_all_incidents noRespServer "k" none none none none 50 3 =
      some ([buildRequest "k" none 1 50 none none none none],
        Except.error (FetchError.httpError none)) ∧
    (∃ reqs : List Request,
      fetch_all_incidents failLaterServer "k" none none none none 50 1 =
        some (reqs, Except.error (FetchError.httpError none)) ∧
      reqs.length = 2) :=
  ⟨spec_C4.1 noRespServer "k" none none none none 50 3 (FetchError.httpError none) rfl,
    spec_C4.2 failLaterServer "k" none none none none 50 w2Page1 w2Page1 0 1 "u2"
      (FetchError.httpError none) rfl rfl rfl rfl (by omega)⟩

theorem contReq_shape (api_key s : String) :
    ((contReq api_key s).url ≠ BASE_URL → (contReq api_key s).params = []) ∧
    ((contReq api_key s).url = BASE_URL →
      (contReq api_key s).params = [("page", PVal.int 1), ("per_page", PVal.int 50)]) ∧
    (contReq api_key s).bearer = api_key := by
  unfold contReq buildRequest
  by_cases hs : effectiveUrl (some s) = BASE_URL
  · rw [if_pos hs]
    exact ⟨fun h => absurd hs h, fun _ => rfl, rfl⟩
  · rw [if_neg hs]
    exact ⟨fun _ => rfl, fun h => absurd h hs, rfl⟩

/-- C3 (amended): every request after the first in a traversal is a
continuation fetch carrying none of the caller's filters; it attaches
no query parameters whenever its URL differs from the base endpoint.
(As the counterexample shows, a continuation URL exactly equal to the
base endpoint does get the fetcher's default `page=1`/`per_page=50`
parameters, so "no parameters on every continuation fetch", as the
claim stated it, is false; the caller's filters are still never
attached.) -/
theorem spec_C3 (server : Request → HttpResponse) (api_key : String)
    (from_date to_date : Option String) (monitor_id heartbeat_id : Option Int)
    (per_page : Int) (fuel : Nat) (reqs : List Request)
    (res : Except FetchError (List Json))
    (h : fetch_all_incidents server api_key from_date to_date monitor_id heartbeat_id
      per_page fuel = some (reqs, res)) :
    ∀ r ∈ reqs.tail,
      (r.url ≠ BASE_URL → r.params = []) ∧
      (r.url = BASE_URL → r.params = [("page", PVal.int 1), ("per_page", PVal.int 50)]) ∧
      r.bearer = api_key := by
  unfold fetch_all_incidents at h
  cases hfirst : fetch_incidents_page server api_key none 1 per_page from_date to_date
      monitor_id heartbeat_id with
  | error e =>
    rw [hfirst] at h
    dsimp only at h
    obtain ⟨rfl, -⟩ :
        [buildRequest api_key none 1 per_page from_date to_date monitor_id heartbeat_id] =
          reqs ∧ Except.error e = res := by
      cases h; exact ⟨rfl, rfl⟩
    intro r hr
    simp at hr
  | ok p0 =>
    rw [hfirst] at h
    dsimp only at h
    obtain ⟨suffix, rfl, hall⟩ :=
      loop_reqs_extend server api_key fuel p0 []
        [buildRequest api_key none 1 per_page from_date to_date monitor_id heartbeat_id]
        reqs res h
    intro r hr
    have hr2 : r ∈ suffix := by simpa using hr
    obtain ⟨s, rfl⟩ := hall r hr2
    exact contReq_shape api_key s

/-- C3 (counterexample): a traversal whose first page advertises the
base endpoint itself as its `next` link.  The second request of the
trace — a continuation fetch — carries the query parameters `page=1`
and `per_page=50`, refuting "every fetch after the first attaches no
query parameters". -/
theorem spec_C3_cex :
    fetch_all_incidents c3Server "k" none none (some 42) none 50 2 =
      some ([Request.mk BASE_URL
          [("page", PVal.int 1), ("per_page", PVal.int 50), ("monitor_id", PVal.int 42)] "k",
        Request.mk BASE_URL [("page", PVal.int 1), ("per_page", PVal.int 50)] "k"],
        Except.ok []) := rfl

theorem spec_C3_witness :
    (Request.mk "u2" ([] : List (String × PVal)) "k").params = [] :=
  ((spec_C3 w2Server "k" none none none none 50 2
    [Request.mk BASE_URL [("page", PVal.int 1), ("per_page", PVal.int 50)] "k",
      Request.mk "u2" [] "k"]
    (Except.ok [Json.num 1, Json.num 2, Json.num 3]) rfl
    (Request.mk "u2" [] "k") (by simp)).1) (by decide)

/-- C5: the Page Fetcher fails with `httpError` exactly when the HTTP
layer cannot complete the request or answers with an error status (the
band `[400, 600)` that `raise_for_status` raises on), fails with
`decodeError` exactly when the status is a success but the body is not
valid JSON, returns the parsed body exactly on a success status with a
valid JSON body, and the two error classes are distinct. -/
theorem spec_C5 (server : Request → HttpResponse) (api_key : String)
    (url : Option String) (page per_page : Int) (from_date to_date : Option String)
    (monitor_id heartbeat_id : Option Int) :
    ((∃ st : Option Nat,
        fetch_incidents_page server api_key url page per_page from_date to_date
          monitor_id heartbeat_id = Except.error (FetchError.httpError st)) ↔
      (server (buildRequest api_key url page per_page from_date to_date
          monitor_id heartbeat_id) = HttpResponse.noResponse ∨
        ∃ (status : Nat) (body : Option Json),
          server (buildRequest api_key url page per_page from_date to_date
            monitor_id heartbeat_id) = HttpResponse.resp status body ∧
          raise_for_status status = true)) ∧
    ((fetch_incidents_page server api_key url page per_page from_date to_date
        monitor_id heartbeat_id = Except.error FetchError.decodeError) ↔
      (∃ status : Nat,
        server (buildRequest api_key url page per_page from_date to_date
          monitor_id heartbeat_id) = HttpResponse.resp status none ∧
        raise_for_status status = false)) ∧
    (∀ j : Json,
      (fetch_incidents_page server api_key url page per_page from_date to_date
        monitor_id heartbeat_id = Except.ok j) ↔
      (∃ status : Nat,
        server (buildRequest api_key url page per_page from_date to_date
          monitor_id heartbeat_id) = HttpResponse.resp status (some j) ∧
        raise_for_status status = false)) ∧
    (∀ st : Option Nat, FetchError.httpError st ≠ FetchError.decodeError) := by
  unfold fetch_incidents_page
  cases hr : server (buildRequest api_key url page per_page from_date to_date
      monitor_id heartbeat_id) with
  | noResponse =>
    refine ⟨?_, ?_, ?_, fun st h => FetchError.noConfusion h⟩ <;> simp
  | resp status body =>
    dsimp only
    by_cases hs : raise_for_status status = true
    · rw [if_pos hs]
      refine ⟨?_, ?_, ?_, fun st h => FetchError.noConfusion h⟩ <;> simp [hs]
    · have hs2 : raise_for_status status = false := by
        simp only [Bool.not_eq_true] at hs
        exact hs
      rw [if_neg hs]
      cases body with
      | none =>
        refine ⟨?_, ?_, ?_, fun st h => FetchError.noConfusion h⟩ <;> simp [hs2]
      | some j =>
        refine ⟨?_, ?_, ?_, fun st h => FetchError.noConfusion h⟩ <;> simp [hs2]
        intro j1
        constructor
        · rintro rfl
          exact ⟨status, ⟨rfl, rfl⟩, hs2⟩
        · rintro ⟨st1, ⟨h1, h2⟩, h3⟩
          exact h2

theorem spec_C5_witness :
    ∃ st : Option Nat,
      fetch_incidents_page deny404Server "k" none 1 50 none none none none =
        Except.error (FetchError.httpError st) :=
  (spec_C5 deny404Server "k" none 1 50 none none none none).1.mpr
    (Or.inr ⟨404, some emptyPage, rfl, rfl⟩)

/-- C6 (counterexample): the caller supplies `monitor_id` with the
value `0`, yet the first (and only) request of the traversal carries no
`monitor_id` query parameter — `if monitor_id:` treats the supplied `0`
like an absent value — refuting "included as a query parameter if and
only if the caller supplied it". -/
theorem spec_C6_cex :
    fetch_all_incidents constEmptyServer "k" none none (some 0) none 50 1 =
      some ([Request.mk BASE_URL [("page", PVal.int 1), ("per_page", PVal.int 50)] "k"],
        Except.ok []) := rfl

/-- C6 (amended): the first request of every traversal goes to the
fixed base endpoint and its query parameters are, in order: `page=1`
always; `per_page` exactly when the caller's page size is non-zero; and
each optional filter exactly when the caller supplied it with a truthy
value (a non-empty date string, a non-zero identifier) — a supplied
falsy value (`0`, the empty string) is omitted just like an absent
one. -/
theorem spec_C6 (server : Request → HttpResponse) (api_key : String)
    (from_date to_date : Option String) (monitor_id heartbeat_id : Option Int)
    (per_page : Int) (fuel : Nat) (reqs : List Request)
    (res : Except FetchError (List Json))
    (h : fetch_all_incidents server api_key from_date to_date monitor_id heartbeat_id
      per_page fuel = some (reqs, res)) :
    reqs.head? =
      some (buildRequest api_key none 1 per_page from_date to_date monitor_id heartbeat_id) ∧
    (buildRequest api_key none 1 per_page from_date to_date monitor_id heartbeat_id).url =
      BASE_URL ∧
    (buildRequest api_key none 1 per_page from_date to_date monitor_id heartbeat_id).params =
      ("page", PVal.int 1) ::
      ((if per_page = 0 then [] else [("per_page", PVal.int per_page)]) ++
       (match from_date with
        | some s => if s = "" then [] else [("from", PVal.str s)]
        | none => []) ++
       (match to_date with
        | some s => if s = "" then [] else [("to", PVal.str s)]
        | none => []) ++
       (match monitor_id with
        | some n => if n = 0 then [] else [("monitor_id", PVal.int n)]
        | none => []) ++
       (match heartbeat_id with
        | some n => if n = 0 then [] else [("heartbeat_id", PVal.int n)]
        | none => [])) := by
  refine ⟨?_, ?_, ?_⟩
  · unfold fetch_all_incidents at h
    cases hfirst : fetch_incidents_page server api_key none 1 per_page from_date to_date
        monitor_id heartbeat_id with
    | error e =>
      rw [hfirst] at h
      dsimp only at h
      obtain ⟨rfl, -⟩ :
          [buildRequest api_key none 1 per_page from_date to_date monitor_id heartbeat_id] =
            reqs ∧ Except.error e = res := by
        cases h; exact ⟨rfl, rfl⟩
      rfl
    | ok p0 =>
      rw [hfirst] at h
      dsimp only at h
      obtain ⟨suffix, rfl, -⟩ :=
        loop_reqs_extend server api_key fuel p0 []
          [buildRequest api_key none 1 per_page from_date to_date monitor_id heartbeat_id]
          reqs res h
      rfl
  · simp [buildRequest, effectiveUrl]
  · simp only [buildRequest, effectiveUrl, buildParams, if_pos]
    norm_num
    cases from_date <;> cases to_date <;> cases monitor_id <;> cases heartbeat_id <;> rfl

theorem spec_C6_witness :
    ([Request.mk BASE_URL
        [("page", PVal.int 1), ("per_page", PVal.int 25), ("from", PVal.str "2024-01-01"),
          ("monitor_id", PVal.int 7)] "k"] : List Request).head? =
      some (buildRequest "k" none 1 25 (some "2024-01-01") none (some 7) none) :=
  (spec_C6 constEmptyServer "k" (some "2024-01-01") none (some 7) none 25 1
    [Request.mk BASE_URL
        [("page", PVal.int 1), ("per_page", PVal.int 25), ("from", PVal.str "2024-01-01"),
          ("monitor_id", PVal.int 7)] "k"]
    (Except.ok []) rfl).1
